import Mathlib

/-!
Shallow embedding of the league-analysis ingestion-and-aggregation pipeline
(`src/main.py`, the legacy JSON-file pipeline, and `src/src/main.py`, the
newer MongoDB pipeline), together with theorems settling the frozen claims.

Conventions of the embedding:
* Machine real arithmetic is modelled exactly over `ℚ`; Python's `round`
  (round half to even) is modelled by `pyRound` below.
* Python dictionaries are modelled as association lists that preserve
  insertion order (first occurrence of a key is its position), matching
  CPython's ordered-dict iteration semantics.
* Python strings are `String`; `None`-or-string parameters are `Option String`
  unless Python truthiness on the empty string is what the source tests, in
  which case the empty string plays the role of falsy input.
-/

/-- Floor of a rational, computed as the floor division of its numerator by
its (positive) denominator. -/
def ratFloor (q : ℚ) : ℤ := Int.fdiv q.num (q.den : ℤ)

/-- `round` of Python on an exact rational: round half to even. -/
def roundHalfEven (q : ℚ) : ℤ :=
  let f : ℤ := ratFloor q
  let frac : ℚ := q - (f : ℚ)
  if frac < 1/2 then f
  else if (1 : ℚ)/2 < frac then f + 1
  else if f % 2 = 0 then f else f + 1

/-- Python's `round(q, nd)` on an exact rational. -/
def pyRound (q : ℚ) (nd : ℕ) : ℚ := ((roundHalfEven (q * 10 ^ nd) : ℤ) : ℚ) / 10 ^ nd

/-- `get_short_version` of `src/src/main.py` (lines 138-142):
falsy (empty) input yields `"0.0"`; otherwise split on `"."` and join the
first two components, returning the sole component unchanged when there is
only one.  (`String.splitOn` never returns `[]`, mirroring Python's
`str.split` which always returns at least one part.) -/
def get_short_version (game_version : String) : String :=
  if game_version = "" then "0.0"
  else
    match game_version.splitOn "." with
    | p0 :: p1 :: _ => p0 ++ "." ++ p1
    | [p0] => p0
    | [] => "0.0"

/-- `version_key` inside `get_latest_patch` of `src/main.py` (lines 113-118):
split into exactly two numeric components, else `(0, 0)`.  Patch strings are
digit-and-dot strings, so `String.toNat?` is a faithful model of `int(...)`
succeeding exactly on the numeric components. -/
def version_key (v : String) : ℕ × ℕ :=
  match v.splitOn "." with
  | [a, b] =>
    match a.toNat?, b.toNat? with
    | some ma, some mi => (ma, mi)
    | _, _ => (0, 0)
  | _ => (0, 0)

/-- Strict lexicographic comparison of Python integer 2-tuples. -/
def vkLt (a b : ℕ × ℕ) : Prop := a.1 < b.1 ∨ (a.1 = b.1 ∧ a.2 < b.2)

instance : DecidableRel vkLt := fun a b => by
  unfold vkLt; infer_instance

/-- Non-strict lexicographic comparison of Python integer 2-tuples. -/
def vkLe (a b : ℕ × ℕ) : Prop := a.1 < b.1 ∨ (a.1 = b.1 ∧ a.2 ≤ b.2)

instance : DecidableRel vkLe := fun a b => by
  unfold vkLe; infer_instance

/-- `get_latest_patch` of `src/main.py` (lines 100-122), applied to the
multiset of patch strings found across all persisted matches: returns
`"14.1"` when no patches exist, else a maximum under `version_key`
(Python's `max(..., key=version_key)` keeps the first maximal element;
the fold below replaces the running best only on a strict improvement). -/
def get_latest_patch (all_patches : List String) : String :=
  match all_patches with
  | [] => "14.1"
  | p :: ps =>
    ps.foldl (fun best v => if vkLt (version_key best) (version_key v) then v else best) p

/-- Current-patch resolution of `src/src/main.py` (lines 236-240 and 416):
`target_patch = get_short_version(latest_ver)` when the version feed
answered, and the hardcoded `"14.1"` when it did not; the persisted store is
not consulted in either case. -/
def resolveCurrentPatch (current_full_ver : Option String) : String :=
  match current_full_ver with
  | some v => get_short_version v
  | none => "14.1"

/-- One upstream response as seen by `smart_request`: either a successful
payload or an `ApiError` carrying a status code and an optional
`Retry-After` header value. -/
inductive ApiResponse (α : Type) where
  | success (v : α)
  | apiError (status : Nat) (retryAfter : Option Nat)
deriving DecidableEq

/-- Outcome of `smart_request`: a payload, `None` (for 404), a re-raised
`ApiError`, or exhaustion of the modelled response trace (the Python loop
would still be running). -/
inductive ReqResult (α : Type) where
  | ok (v : α)
  | absent
  | error (status : Nat)
  | exhausted
deriving DecidableEq

/-- `smart_request` of `src/src/main.py` (lines 121-135) (the wrapper in
`src/main.py` lines 40-65 is identical in behaviour), run against a finite
trace of upstream responses.  Returns the outcome together with the total
time slept: each 429 sleeps `Retry-After` (default 10) plus 1 and retries;
404 returns the absent value; any other status is re-raised. -/
def smart_request {α : Type} : List (ApiResponse α) → ReqResult α × Nat
  | [] => (.exhausted, 0)
  | .success v :: _ => (.ok v, 0)
  | .apiError status ra :: rest =>
    if status = 429 then
      let r := smart_request rest
      (r.1, (ra.getD 10 + 1) + r.2)
    else if status = 404 then (.absent, 0)
    else (.error status, 0)

/-- A persisted match document, reduced to the two fields the retention and
deduplication logic reads: `metadata.matchId` and `info.gameVersion`
(see `slim_match` in `src/src/main.py` lines 154-202). -/
structure StoredMatch where
  matchId : String
  gameVersion : String
deriving DecidableEq

/-- Matcher for an anchored Mongo/PCRE regex whose pattern consists of
digits and dots (the shape of every `target_patch`): the pattern must match
at the start of the text, where each pattern character matches itself and
`'.'` matches any single character. -/
def dotPatMatch : List Char → List Char → Bool
  | [], _ => true
  | _ :: _, [] => false
  | c :: cs, t :: ts => (c = '.' || c = t) && dotPatMatch cs ts

/-- Anchored regex test `^pat` against `text`, for dot-and-literal patterns. -/
def regexAnchoredMatch (pat text : String) : Bool := dotPatMatch pat.data text.data

/-- The retention purge of `src/src/main.py` (lines 246-248):
`delete_many({"info.gameVersion": {"$not": {"$regex": "^" + target_patch}}})`
deletes every document whose `gameVersion` does NOT match the anchored
regex, i.e. keeps exactly the documents that do match it. -/
def purgeOldPatches (target_patch : String) (store : List StoredMatch) : List StoredMatch :=
  store.filter (fun m => regexAnchoredMatch target_patch m.gameVersion)

/-- A full match detail as fetched from upstream, reduced to the fields the
ingestion loop reads before slimming. -/
structure MatchDetail where
  matchId : String
  gameVersion : String
deriving DecidableEq

/-- `slim_match` of `src/src/main.py` restricted to the fields of our store
model: the stored document carries the detail's match id and game version. -/
def slim_match (d : MatchDetail) : StoredMatch := ⟨d.matchId, d.gameVersion⟩

/-- `insert_one` against the unique index on `metadata.matchId`
(`src/src/main.py` line 72): insertion fails (duplicate key) exactly when
the id is already present; the caller swallows that failure
(lines 398-403), so it is reported as a `Bool`, not an error. -/
def insert_one (store : List StoredMatch) (doc : StoredMatch) : List StoredMatch × Bool :=
  if store.any (fun m => m.matchId = doc.matchId) then (store, false)
  else (store ++ [doc], true)

/-- Result of ingesting one player's match list: the updated store, the
number of newly stored matches, and the ids for which a full detail fetch
(`watcher.match.by_id`) was issued. -/
structure IngestResult where
  store : List StoredMatch
  newCount : Nat
  fetched : List String
deriving DecidableEq

/-- The body of the `for match_id in new_matches` loop of `src/src/main.py`
(lines 381-403): fetch the detail (`none` models `smart_request` returning
`None` on 404), skip it when a target patch is established and the match's
short version differs (`if target_patch and match_ver != target_patch`;
Python truthiness of the string is modelled by `≠ ""`), else slim and
insert, swallowing a duplicate-key failure without counting it. -/
def ingestStep (fetchDetail : String → Option MatchDetail) (target_patch : String)
    (acc : IngestResult) (mid : String) : IngestResult :=
  let acc := { acc with fetched := acc.fetched ++ [mid] }
  match fetchDetail mid with
  | none => acc
  | some d =>
    let match_ver := get_short_version d.gameVersion
    if target_patch ≠ "" ∧ match_ver ≠ target_patch then acc
    else
      let ins := insert_one acc.store (slim_match d)
      { acc with
          store := ins.1
          newCount := acc.newCount + (if ins.2 then 1 else 0) }

/-- The per-player ingestion loop of `src/src/main.py` (lines 370-403):
one batched existence query computes the ids already present in the store,
and full detail is fetched (and processed by `ingestStep`) only for the
identifiers not among them. -/
def ingestPlayer (store : List StoredMatch) (match_ids : List String)
    (fetchDetail : String → Option MatchDetail) (target_patch : String) : IngestResult :=
  let existing_ids := (store.filter (fun m => m.matchId ∈ match_ids)).map (fun m => m.matchId)
  let new_matches := match_ids.filter (fun mid => mid ∉ existing_ids)
  new_matches.foldl (ingestStep fetchDetail target_patch) ⟨store, 0, []⟩

/-- One participant of a per-match summary as built by the analyst phase of
`src/src/main.py` (lines 455-478). -/
structure Participant where
  role : String
  name : String
  champ : String
  win : Bool
  k : Nat
  d : Nat
  a : Nat
  items : List Nat
  context : List String
deriving DecidableEq

/-- A per-match summary (`src/src/main.py` line 453): short patch, banned
champion ids, and participant summaries. -/
structure MatchSummary where
  patch : String
  bans : List Nat
  participants : List Participant
deriving DecidableEq

/-- One context bucket of a champion's stats (`context_data[tag]`). -/
structure CtxData where
  g : Nat
  builds : List (List Nat)
deriving DecidableEq

/-- Per-champion accumulator of `aggregate` in `src/src/main.py`
(lines 522-531): games, wins, kills, deaths, assists, bans, the build
signatures seen, and the context buckets. -/
structure ChampStat where
  g : Nat
  w : Nat
  k : Nat
  d : Nat
  a : Nat
  b : Nat
  builds : List (List Nat)
  context_data : List (String × CtxData)
deriving DecidableEq

/-- The zero-initialised champion accumulator. -/
def initChampStat : ChampStat := ⟨0, 0, 0, 0, 0, 0, [], []⟩

/-- Insertion-order-preserving update of a Python dict modelled as an
association list: the first entry with the key is updated in place, and a
missing key is appended as `f init` (Python: `if k not in d: d[k] = init`
followed by in-place mutation). -/
def upsert {A : Type} (l : List (String × A)) (key : String) (init : A) (f : A → A) :
    List (String × A) :=
  match l with
  | [] => [(key, f init)]
  | (k, v) :: rest => if k = key then (k, f v) :: rest else (k, v) :: upsert rest key init f

/-- The item filter of `src/src/main.py` (lines 543-546): keep slot values
that are non-zero and — when a valid-item set was loaded — members of it
(`VALID_ITEMS is None` disables filtering). -/
def valid_player_items (validItems : Option (List Nat)) (items : List Nat) : List Nat :=
  items.filter (fun i => i != 0 && (validItems.isNone || (validItems.getD []).contains i))

/-- The build-signature computation of `src/src/main.py` (lines 548-554):
with at least two valid items, the signature is the ascending sort of the
first three of them; otherwise no signature is produced. -/
def build_signature (validItems : Option (List Nat)) (items : List Nat) : Option (List Nat) :=
  let v := valid_player_items validItems items
  if 2 ≤ v.length then some (List.insertionSort (· ≤ ·) (v.take 3)) else none

/-- The context-bucket update of `src/src/main.py` (lines 556-564): each of
the participant's context tags gains a game, and — when the participant has
at least two valid items — a copy of the sorted first-three signature. -/
def ctxUpdate (vitems : List Nat) (tags : List String) (cd : List (String × CtxData)) :
    List (String × CtxData) :=
  tags.foldl (fun acc tag =>
    upsert acc tag ⟨0, []⟩ (fun c =>
      { g := c.g + 1
        builds :=
          if 2 ≤ vitems.length then c.builds ++ [List.insertionSort (· ≤ ·) (vitems.take 3)]
          else c.builds })) cd

/-- The per-participant accumulation of `aggregate` (`src/src/main.py`
lines 533-564) applied to one champion accumulator. -/
def recordParticipant (validItems : Option (List Nat)) (p : Participant) (s : ChampStat) :
    ChampStat :=
  let vitems := valid_player_items validItems p.items
  { g := s.g + 1
    w := s.w + (if p.win then 1 else 0)
    k := s.k + p.k
    d := s.d + p.d
    a := s.a + p.a
    b := s.b
    builds := s.builds ++ (match build_signature validItems p.items with
      | some sig => [sig]
      | none => [])
    context_data := ctxUpdate vitems p.context s.context_data }

/-- `next((x for x in m["participants"] if x["role"] == role_filter), None)`
(`src/src/main.py` lines 490-492): the first participant in the role. -/
def findRole (ps : List Participant) (role : String) : Option Participant :=
  ps.find? (fun p => p.role == role)

/-- Pass 1 of `aggregate` (`src/src/main.py` lines 488-564) restricted to the
champion accumulators: fold the match list, updating the accumulator of the
champion played in the filtered role (matches without such a participant
contribute nothing here). -/
def collectStats (match_list : List MatchSummary) (role_filter : String)
    (validItems : Option (List Nat)) : List (String × ChampStat) :=
  match_list.foldl (fun st m =>
    match findRole m.participants role_filter with
    | none => st
    | some p => upsert st p.champ initChampStat (recordParticipant validItems p)) []

/-- Lookup in the `champ_id_to_name` dict, modelled as an association list. -/
def lookupChamp (champMap : List (Nat × String)) (cid : Nat) : Option String :=
  (champMap.find? (fun q => q.1 == cid)).map (fun q => q.2)

/-- Pass 2 of `aggregate` (`src/src/main.py` lines 566-583): every ban whose
champion id is known gains one ban tally, creating a zeroed accumulator for
champions that were banned but never played. -/
def addBans (stats : List (String × ChampStat)) (match_list : List MatchSummary)
    (champMap : List (Nat × String)) : List (String × ChampStat) :=
  match_list.foldl (fun st m =>
    m.bans.foldl (fun st2 bid =>
      match lookupChamp champMap bid with
      | some bn => upsert st2 bn initChampStat (fun s => { s with b := s.b + 1 })
      | none => st2) st) stats

/-- Number of occurrences of a signature in a build list. -/
def countOcc (l : List (List Nat)) (x : List Nat) : Nat :=
  (l.filter (fun y => y == x)).length

/-- `Counter(l).most_common(1)` head: the first-encountered signature of
maximal multiplicity (CPython's counter sort is stable, so ties are broken
by first insertion).  Returns `[]` on an empty list. -/
def mostCommon1 (l : List (List Nat)) : List Nat :=
  (l.foldl (fun best x =>
    match best with
    | none => some x
    | some bv => if countOcc l bv < countOcc l x then some x else some bv) none).getD []

/-- One emitted champion summary (`src/src/main.py` lines 625-636). -/
structure ResultEntry where
  name : String
  count : Nat
  pick_rate : ℚ
  win_rate : ℚ
  ban_rate : ℚ
  kda : ℚ
  top_items : List Nat
  context_builds : List (String × Nat × List Nat)
deriving DecidableEq

/-- The per-champion finalisation math of `aggregate` (`src/src/main.py`
lines 591-621): the four rounded rates, the single most common build
signature, and the context builds that reach the minimum sample size of 3
games and have a non-empty mined build. -/
def mkChampEntry (total : Nat) (name : String) (s : ChampStat) : ResultEntry :=
  { name := name
    count := s.g
    pick_rate := pyRound ((s.g : ℚ) / (total : ℚ) * 100) 1
    win_rate := if 0 < s.g then pyRound ((s.w : ℚ) / (s.g : ℚ) * 100) 1 else 0
    ban_rate := pyRound ((s.b : ℚ) / (total : ℚ) * 100) 1
    kda := pyRound (((s.k : ℚ) + (s.a : ℚ)) / (if 0 < s.d then (s.d : ℚ) else 1)) 2
    top_items := if s.builds.isEmpty then [] else mostCommon1 s.builds
    context_builds := s.context_data.filterMap (fun q =>
      if 3 ≤ q.2.g then
        let ti := if q.2.builds.isEmpty then [] else mostCommon1 q.2.builds
        if ti.isEmpty then none else some (q.1, q.2.g, ti)
      else none) }

/-- Pass 3 of `aggregate` (`src/src/main.py` lines 586-636): skip champions
with neither games nor bans, then emit an entry exactly when the champion
has a game or a rounded ban rate strictly above 1.0. -/
def finalizeResults (total : Nat) (stats : List (String × ChampStat)) : List ResultEntry :=
  stats.filterMap (fun q =>
    if q.2.g = 0 ∧ q.2.b = 0 then none
    else
      let e := mkChampEntry total q.1 q.2
      if 0 < q.2.g ∨ 1 < e.ban_rate then some e else none)

/-- `aggregate(match_list, role_filter)` of `src/src/main.py`
(lines 481-638): empty input yields `[]`; otherwise accumulate, count bans,
finalise, sort by pick rate descending (Python's stable `sorted` with
`reverse=True`, modelled by a stable insertion sort under the relation
`y.pick_rate ≤ x.pick_rate`) and truncate to 15. -/
def aggregate (match_list : List MatchSummary) (role_filter : String)
    (champMap : List (Nat × String)) (validItems : Option (List Nat)) : List ResultEntry :=
  let total := match_list.length
  if total = 0 then []
  else
    let stats := addBans (collectStats match_list role_filter validItems) match_list champMap
    (List.insertionSort (fun x y => y.pick_rate ≤ x.pick_rate)
      (finalizeResults total stats)).take 15

/-- One player's accumulator in `player_performance` (`src/src/main.py`
lines 503-517). -/
structure PlayerTally where
  g : Nat
  w : Nat
  k : Nat
  d : Nat
  a : Nat
  r : String
deriving DecidableEq

/-- One emitted leaderboard entry (`src/src/main.py` lines 649-657). -/
structure LBEntry where
  player : String
  region : String
  games : Nat
  win_rate : ℚ
  kda : ℚ
deriving DecidableEq

/-- The per-player finalisation of a leaderboard (`src/src/main.py`
lines 646-657): the same rounded win-rate and KDA formulas as the champion
summaries, applied to the player's tally. -/
def mkLBEntry (pname : String) (s : PlayerTally) : LBEntry :=
  { player := pname
    region := s.r
    games := s.g
    win_rate := pyRound ((s.w : ℚ) / (s.g : ℚ) * 100) 1
    kda := pyRound (((s.k : ℚ) + (s.a : ℚ)) / (if 0 < s.d then (s.d : ℚ) else 1)) 2 }

/-- The leaderboard sort key (`src/src/main.py` lines 658-660):
`sorted(lb, key=lambda x: (x["games"], x["win_rate"]), reverse=True)`, i.e.
descending lexicographic order on (games, win rate). -/
def lbLe (x y : LBEntry) : Prop := y.games < x.games ∨ (y.games = x.games ∧ y.win_rate ≤ x.win_rate)

instance : DecidableRel lbLe := fun x y => by
  unfold lbLe; infer_instance

instance : IsTotal LBEntry lbLe := by
  constructor
  intro x y
  unfold lbLe
  rcases Nat.lt_trichotomy y.games x.games with h | h | h
  · exact Or.inl (Or.inl h)
  · rcases le_total y.win_rate x.win_rate with hw | hw
    · exact Or.inl (Or.inr ⟨h, hw⟩)
    · exact Or.inr (Or.inr ⟨h.symm, hw⟩)
  · exact Or.inr (Or.inl h)

instance : IsTrans LBEntry lbLe := by
  constructor
  intro x y z hxy hyz
  unfold lbLe at *
  rcases hxy with h1 | ⟨e1, w1⟩ <;> rcases hyz with h2 | ⟨e2, w2⟩
  · exact Or.inl (by omega)
  · exact Or.inl (by omega)
  · exact Or.inl (by omega)
  · exact Or.inr ⟨by omega, w2.trans w1⟩

/-- The leaderboard emission for one `(role, champion)` key
(`src/src/main.py` lines 644-660): format every accumulated player tally
and sort by games descending with win rate descending as tie-break; no
truncation. -/
def buildLeaderboard (players : List (String × PlayerTally)) : List LBEntry :=
  List.insertionSort lbLe (players.map (fun q => mkLBEntry q.1 q.2))

/-- One raw participant of a stored match as read by `analyze_enemy_comp`
(`src/src/main.py` lines 205-228). -/
structure RawParticipant where
  teamId : Nat
  championName : String
  physicalDamageDealtToChampions : Nat
  magicDamageDealtToChampions : Nat
  trueDamageDealtToChampions : Nat
deriving DecidableEq

/-- The three enemy damage totals (physical, magic, true) computed by
`analyze_enemy_comp` over the opposing team. -/
def enemyTotals (ps : List RawParticipant) (my_team_id : Nat) : Nat × Nat × Nat :=
  let enemies := ps.filter (fun p => p.teamId != my_team_id)
  ((enemies.map (fun p => p.physicalDamageDealtToChampions)).sum,
   (enemies.map (fun p => p.magicDamageDealtToChampions)).sum,
   (enemies.map (fun p => p.trueDamageDealtToChampions)).sum)

/-- `analyze_enemy_comp` of `src/src/main.py` (lines 205-228): with zero
total enemy damage the tag list is empty; otherwise "Heavy AD" when the
physical share exceeds 0.65, else "Heavy AP" when the magic share exceeds
0.60, and additionally "Tank Heavy" when at least two enemies are tanks. -/
def analyze_enemy_comp (tankChamps : List String) (ps : List RawParticipant)
    (my_team_id : Nat) : List String :=
  let enemies := ps.filter (fun p => p.teamId != my_team_id)
  let total_phys := (enemies.map (fun p => p.physicalDamageDealtToChampions)).sum
  let total_magic := (enemies.map (fun p => p.magicDamageDealtToChampions)).sum
  let total_dmg :=
    total_phys + total_magic + (enemies.map (fun p => p.trueDamageDealtToChampions)).sum
  if total_dmg = 0 then []
  else
    let tags :=
      if (65 : ℚ) / 100 < (total_phys : ℚ) / (total_dmg : ℚ) then ["Heavy AD"]
      else if (60 : ℚ) / 100 < (total_magic : ℚ) / (total_dmg : ℚ) then ["Heavy AP"]
      else []
    let tank_count := (enemies.filter (fun p => tankChamps.contains p.championName)).length
    if 2 ≤ tank_count then tags ++ ["Tank Heavy"] else tags

/-! ### Concrete fixtures used by witnesses and counterexamples -/

/-- A stored match from patch `14.23` (short version `"14.23"`). -/
def m1423 : StoredMatch := ⟨"KR_1", "14.23.456.7890"⟩

/-- A stored match from patch `14.22`. -/
def m1422 : StoredMatch := ⟨"KR_2", "14.22.100.1"⟩

/-- A second stored match from patch `14.23`. -/
def m1423b : StoredMatch := ⟨"KR_3", "14.23.2.2"⟩

/-- A store already holding the two match ids `M1` and `M2`. -/
def stC3 : List StoredMatch := [⟨"M1", "15.1.1.1"⟩, ⟨"M2", "15.1.1.1"⟩]

/-- A detail fetcher knowing only match `M3`. -/
def fetchC3 : String → Option MatchDetail :=
  fun mid => if mid = "M3" then some ⟨"M3", "15.1.1.1"⟩ else none

/-- A winning game of champion `X` in the `TOP` role, 3/1/3, empty item slots. -/
def pXw : Participant := ⟨"TOP", "P1", "X", true, 3, 1, 3, [0, 0, 0, 0, 0, 0], []⟩

/-- A losing game of champion `X` in the `TOP` role, 3/1/3, empty item slots. -/
def pXl : Participant := ⟨"TOP", "P1", "X", false, 3, 1, 3, [0, 0, 0, 0, 0, 0], []⟩

/-- A match won by `X` in `TOP`. -/
def mW : MatchSummary := ⟨"15.1", [], [pXw]⟩

/-- A match lost by `X` in `TOP`. -/
def mL : MatchSummary := ⟨"15.1", [], [pXl]⟩

/-- A match with champion id 7 banned and no `TOP` participant. -/
def mB : MatchSummary := ⟨"15.1", [7], []⟩

/-- A match contributing nothing to the `TOP` role. -/
def mE : MatchSummary := ⟨"15.1", [], []⟩

/-- The 40-match subset of the spec's rate-math example: champion `X` has
10 games (6 wins) and is banned in 2 of the remaining matches. -/
def ml40 : List MatchSummary :=
  List.replicate 6 mW ++ List.replicate 4 mL ++ List.replicate 2 mB ++ List.replicate 28 mE

/-- The champion summary `aggregate` emits for `X` on `ml40`:
pick rate 25.0, win rate 60.0, ban rate 5.0, KDA 6.00. -/
def entryX : ResultEntry := ⟨"X", 10, 25, 60, 5, 6, [], []⟩

/-- The raw accumulator behind `entryX`. -/
def statX : ChampStat := ⟨10, 6, 30, 10, 30, 2, [], []⟩

/-- Sixteen distinct champion names. -/
def champs16 : List String :=
  ["C01", "C02", "C03", "C04", "C05", "C06", "C07", "C08",
   "C09", "C10", "C11", "C12", "C13", "C14", "C15", "C16"]

/-- Sixteen matches, each played by a different champion in `TOP`: sixteen
qualifying champions for a role-subset capped at fifteen results. -/
def ml16 : List MatchSummary :=
  champs16.map (fun c => ⟨"15.1", [], [⟨"TOP", "P", c, true, 0, 0, 0, [], []⟩]⟩)

/-- A champion banned 10 times out of 1000 matches (ban rate exactly 1.0). -/
def statBan10 : ChampStat := ⟨0, 0, 0, 0, 0, 10, [], []⟩

/-- A champion banned 11 times out of 1000 matches (ban rate 1.1). -/
def statBan11 : ChampStat := ⟨0, 0, 0, 0, 0, 11, [], []⟩

/-- A champion-stat table holding only the two ban-boundary champions. -/
def statsAB : List (String × ChampStat) := [("A", statBan10), ("B", statBan11)]

/-- Two player tallies under one leaderboard key: `p1` with more games and
a lower win rate than `p2`. -/
def lbPlayers : List (String × PlayerTally) :=
  [("p2", ⟨2, 2, 10, 2, 4, "kr"⟩), ("p1", ⟨3, 1, 9, 3, 6, "kr"⟩)]

/-! ### Helper lemmas -/

theorem vkLe_refl (a : ℕ × ℕ) : vkLe a a := by
  unfold vkLe; omega

theorem vkLe_trans {a b c : ℕ × ℕ} (h1 : vkLe a b) (h2 : vkLe b c) : vkLe a c := by
  unfold vkLe at *; omega

theorem vkLt_vkLe {a b : ℕ × ℕ} (h : vkLt a b) : vkLe a b := by
  unfold vkLt at h; unfold vkLe; omega

theorem vkLe_of_not_vkLt {a b : ℕ × ℕ} (h : ¬ vkLt a b) : vkLe b a := by
  unfold vkLt at h; unfold vkLe; omega

theorem foldl_latest_patch (ps : List String) (b : String) :
    (ps.foldl (fun best v => if vkLt (version_key best) (version_key v) then v else best) b)
      ∈ b :: ps ∧
    ∀ q ∈ b :: ps, vkLe (version_key q)
      (version_key
        (ps.foldl (fun best v => if vkLt (version_key best) (version_key v) then v else best) b)) := by
  induction ps generalizing b with
  | nil =>
    refine ⟨List.mem_singleton.mpr rfl, ?_⟩
    intro q hq
    rw [List.mem_singleton] at hq
    subst hq
    exact vkLe_refl _
  | cons v ps ih =>
    rw [List.foldl_cons]
    rcases ih (if vkLt (version_key b) (version_key v) then v else b) with ⟨hmem, hmax⟩
    constructor
    · rcases List.mem_cons.mp hmem with h | h
      · rw [h]
        by_cases hlt : vkLt (version_key b) (version_key v)
        · simp only [if_pos hlt]
          exact List.mem_cons_of_mem _ (List.mem_cons_self _ _)
        · simp only [if_neg hlt]
          exact List.mem_cons_self _ _
      · exact List.mem_cons_of_mem _ (List.mem_cons_of_mem _ h)
    · intro q hq
      rcases List.mem_cons.mp hq with h | h
      · rw [h]
        by_cases hlt : vkLt (version_key b) (version_key v)
        · have h1 := hmax _ (List.mem_cons_self _ _)
          rw [if_pos hlt] at h1 ⊢
          exact vkLe_trans (vkLt_vkLe hlt) h1
        · have h1 := hmax _ (List.mem_cons_self _ _)
          rw [if_neg hlt] at h1 ⊢
          exact h1
      · rcases List.mem_cons.mp h with h2 | h2
        · rw [h2]
          by_cases hlt : vkLt (version_key b) (version_key v)
          · have h1 := hmax _ (List.mem_cons_self _ _)
            rw [if_pos hlt] at h1 ⊢
            exact h1
          · have h1 := hmax _ (List.mem_cons_self _ _)
            rw [if_neg hlt] at h1 ⊢
            exact vkLe_trans (vkLe_of_not_vkLt hlt) h1
        · exact hmax _ (List.mem_cons_of_mem _ h2)

/-! ### C1: patch resolution fallback -/

/-- C1 (counterexample): with the version feed unreachable and the store
holding a match on patch `"15.5"`, the pipeline of `src/src/main.py`
resolves the current patch to the hardcoded `"14.1"` — it does not fall back
to the highest persisted `(major, minor)` pair, which is `"15.5"`. -/
theorem claim1_counterexample :
    resolveCurrentPatch none = "14.1" ∧ get_latest_patch ["15.5"] = "15.5" ∧
      resolveCurrentPatch none ≠ get_latest_patch ["15.5"] := by
  refine ⟨rfl, by with_unfolding_all decide, by with_unfolding_all decide⟩

/-- C1 (amended): in `src/src/main.py`, an unreachable version feed resolves
the current patch to the hardcoded default `"14.1"` regardless of persisted
data, and a reachable feed resolves it to the short version of the feed's
first entry; the DB-derived fallback exists only as `get_latest_patch` of
`src/main.py`, which does return a persisted patch whose `(major, minor)`
key is numerically maximal (lexical string comparison is never used), and
the hardcoded `"14.1"` when no patches are persisted. -/
theorem claim1_amended (v : String) (ps : List String) (hps : ps ≠ []) :
    resolveCurrentPatch none = "14.1" ∧
    resolveCurrentPatch (some v) = get_short_version v ∧
    get_latest_patch [] = "14.1" ∧
    get_latest_patch ps ∈ ps ∧
    ∀ q ∈ ps, vkLe (version_key q) (version_key (get_latest_patch ps)) := by
  refine ⟨rfl, rfl, rfl, ?_, ?_⟩
  · match ps, hps with
    | p :: ps', _ => exact (foldl_latest_patch ps' p).1
  · match ps, hps with
    | p :: ps', _ => exact (foldl_latest_patch ps' p).2

/-- C1 (witness): on the persisted patches `["14.2", "14.10"]` the DB
fallback of `src/main.py` picks `"14.10"` — numeric-tuple order, where
`"14.2"` sorts below `"14.10"`. -/
theorem claim1_witness :
    (["14.2", "14.10"] : List String) ≠ [] ∧
    get_latest_patch ["14.2", "14.10"] ∈ (["14.2", "14.10"] : List String) ∧
    vkLe (version_key "14.2") (version_key (get_latest_patch ["14.2", "14.10"])) ∧
    get_latest_patch ["14.2", "14.10"] = "14.10" :=
  ⟨by with_unfolding_all decide,
    (claim1_amended "x" ["14.2", "14.10"] (by with_unfolding_all decide)).2.2.2.1,
    (claim1_amended "x" ["14.2", "14.10"] (by with_unfolding_all decide)).2.2.2.2 "14.2"
      (by with_unfolding_all decide),
    by with_unfolding_all decide⟩

/-! ### C2: retention purge -/

/-- C2 (counterexample): with resolved current patch `"14.2"`, a persisted
match from game version `"14.23.456.7890"` — whose short patch version
`"14.23"` differs from `"14.2"` — survives the purge, because the delete
predicate is an anchored regex prefix test on the full version string, not
a short-version equality test. -/
theorem claim2_counterexample :
    purgeOldPatches "14.2" [m1423] = [m1423] ∧
      get_short_version m1423.gameVersion ≠ "14.2" := by
  constructor
  · with_unfolding_all decide
  · with_unfolding_all decide

/-- C2 (amended): the purge keeps exactly the persisted matches whose full
`gameVersion` matches the anchored regex of the resolved current patch
(each pattern character matches itself, `'.'` matching any character) and
deletes all others; in particular the spec's retention example holds: with
current patch `"14.23"`, a store holding a `"14.22"` match and a `"14.23"`
match retains only the latter. -/
theorem claim2_amended (target : String) (store : List StoredMatch) (m : StoredMatch) :
    (m ∈ purgeOldPatches target store ↔
      m ∈ store ∧ regexAnchoredMatch target m.gameVersion = true) ∧
    purgeOldPatches "14.23" [m1422, m1423b] = [m1423b] := by
  constructor
  · simp [purgeOldPatches, List.mem_filter]
  · with_unfolding_all decide

/-- C2 (witness): the amended characterisation applied at current patch
`"14.2"` and the `"14.23.456.7890"` match: the match is retained because the
anchored pattern `14.2` matches the start of its version string. -/
theorem claim2_witness :
    m1423 ∈ purgeOldPatches "14.2" [m1423] :=
  (claim2_amended "14.2" [m1423] m1423).1.mpr
    ⟨by with_unfolding_all decide, by with_unfolding_all decide⟩

/-! ### C7: smart_request retry discipline -/

/-- C7: `smart_request` confronted with `n` rate-limit responses answers
exactly as it answers the remaining trace, sleeping `Retry-After`
(defaulting to 10 when the header is absent) plus 1 for each retry — it
never gives up on 429; a 404 response returns the absent value immediately;
any other error status is raised to the caller without a retry. -/
theorem claim7_smart_request {α : Type} (ra : Option Nat) (rest : List (ApiResponse α))
    (status : Nat) :
    (∀ n : Nat,
      smart_request (List.replicate n (ApiResponse.apiError 429 ra) ++ rest) =
        ((smart_request rest).1, n * (ra.getD 10 + 1) + (smart_request rest).2)) ∧
    smart_request (ApiResponse.apiError 404 ra :: rest) = (ReqResult.absent, 0) ∧
    (status ≠ 429 → status ≠ 404 →
      smart_request (ApiResponse.apiError status ra :: rest) = (ReqResult.error status, 0)) := by
  refine ⟨?_, ?_, ?_⟩
  · intro n
    induction n with
    | zero => simp [smart_request]
    | succ k ih =>
      rw [List.replicate_succ, List.cons_append]
      simp only [smart_request, ih, if_true, eq_self_iff_true, Prod.mk.injEq]
      exact ⟨trivial, by ring⟩
  · simp [smart_request]
  · intro h1 h2
    simp [smart_request, h1, h2]

/-- C7 (witness): a 500 response on an otherwise empty trace is raised as an
error without any retry. -/
theorem claim7_witness :
    (500 ≠ 429) ∧ (500 ≠ 404) ∧
    smart_request (ApiResponse.apiError 500 none :: ([] : List (ApiResponse Nat))) =
      (ReqResult.error 500, 0) :=
  ⟨by decide, by decide,
    (claim7_smart_request none ([] : List (ApiResponse Nat)) 500).2.2 (by decide) (by decide)⟩

/-! ### C8: short version computation -/

/-- C8 (counterexample): the dotless input `"14"` is malformed (it has no
two dot-separated components), yet `get_short_version` returns `"14"`, not
the sentinel `"0.0"`. -/
theorem claim8_counterexample :
    get_short_version "14" = "14" ∧ ("14" : String) ≠ "0.0" := by
  constructor
  · with_unfolding_all decide
  · with_unfolding_all decide

/-- C8 (amended): `get_short_version` returns the first two dot-separated
components joined by a dot for every input with at least two components;
the sentinel `"0.0"` is produced only for the empty (falsy) input, while a
non-empty input without a dot is returned unchanged. -/
theorem claim8_amended (gv : String) :
    (gv = "" → get_short_version gv = "0.0") ∧
    (∀ a b rest, gv ≠ "" → gv.splitOn "." = a :: b :: rest →
      get_short_version gv = a ++ "." ++ b) ∧
    (∀ p, gv ≠ "" → gv.splitOn "." = [p] → get_short_version gv = p) := by
  refine ⟨?_, ?_, ?_⟩
  · intro h
    simp [get_short_version, h]
  · intro a b rest hne hsplit
    simp [get_short_version, hne, hsplit]
  · intro p hne hsplit
    simp [get_short_version, hne, hsplit]

/-- C8 (witness): the full version string `"14.23.456.7890"` reduces to
`"14.23"`, and the empty input yields the sentinel. -/
theorem claim8_witness :
    ("14.23.456.7890" : String) ≠ "" ∧
    "14.23.456.7890".splitOn "." = ["14", "23", "456", "7890"] ∧
    get_short_version "14.23.456.7890" = "14" ++ "." ++ "23" ∧
    get_short_version "" = "0.0" :=
  ⟨by with_unfolding_all decide, by with_unfolding_all decide,
    (claim8_amended "14.23.456.7890").2.1 "14" "23" ["456", "7890"]
      (by with_unfolding_all decide) (by with_unfolding_all decide),
    (claim8_amended "").1 rfl⟩

/-! ### C3: idempotent ingestion -/

theorem ingestStep_fetched (f : String → Option MatchDetail) (tp : String)
    (acc : IngestResult) (mid : String) :
    (ingestStep f tp acc mid).fetched = acc.fetched ++ [mid] := by
  unfold ingestStep
  cases f mid with
  | none => rfl
  | some d =>
    dsimp only
    split
    · rfl
    · rfl

theorem foldl_ingestStep_fetched (f : String → Option MatchDetail) (tp : String)
    (nm : List String) :
    ∀ acc : IngestResult,
      (nm.foldl (ingestStep f tp) acc).fetched = acc.fetched ++ nm := by
  induction nm with
  | nil => intro acc; simp
  | cons mid rest ih =>
    intro acc
    rw [List.foldl_cons, ih, ingestStep_fetched]
    simp

/-- C3: ingestion fetches full detail exactly for the identifiers of a
player's match list that are not yet stored (the set difference computed
against the batched existence lookup), and when every identifier is already
present the run is a no-op: nothing is fetched, nothing is stored, and the
new-match counter stays at zero. -/
theorem claim3_ingest_idempotent (store : List StoredMatch) (match_ids : List String)
    (fetchDetail : String → Option MatchDetail) (target_patch : String) :
    (∀ mid, mid ∈ (ingestPlayer store match_ids fetchDetail target_patch).fetched ↔
      mid ∈ match_ids ∧ ¬ ∃ m ∈ store, m.matchId = mid) ∧
    ((∀ mid ∈ match_ids, ∃ m ∈ store, m.matchId = mid) →
      ingestPlayer store match_ids fetchDetail target_patch = ⟨store, 0, []⟩) := by
  constructor
  · intro mid
    unfold ingestPlayer
    rw [foldl_ingestStep_fetched]
    simp only [List.nil_append, List.mem_filter, decide_eq_true_eq, List.mem_map,
      List.mem_filter, decide_eq_true_eq]
    constructor
    · rintro ⟨hin, hno⟩
      refine ⟨hin, ?_⟩
      rintro ⟨m, hm, he⟩
      exact hno ⟨m, ⟨hm, by simpa [he] using hin⟩, he⟩
    · rintro ⟨hin, hno⟩
      refine ⟨hin, ?_⟩
      rintro ⟨m, ⟨hm, _⟩, he⟩
      exact hno ⟨m, hm, he⟩
  · intro hall
    unfold ingestPlayer
    have hnil : match_ids.filter
        (fun mid => decide (mid ∉ List.map (fun m => m.matchId)
          (List.filter (fun m => decide (m.matchId ∈ match_ids)) store))) = [] := by
      rw [List.filter_eq_nil_iff]
      intro mid hmid
      rcases hall mid hmid with ⟨m, hm, he⟩
      simp only [decide_eq_true_eq, List.mem_map, List.mem_filter, decide_eq_true_eq]
      exact fun hcon => hcon ⟨m, ⟨hm, by simpa [he] using hmid⟩, he⟩
    simp only [hnil, List.foldl_nil]

/-- C3 (witness): with both `M1` and `M2` already stored, re-ingesting the
same two-element match list fetches nothing and stores nothing. -/
theorem claim3_witness :
    ingestPlayer stC3 ["M1", "M2"] fetchC3 "15.1" = ⟨stC3, 0, []⟩ :=
  (claim3_ingest_idempotent stC3 ["M1", "M2"] fetchC3 "15.1").2
    (by with_unfolding_all decide)

/-! ### C5: build-signature canonicalisation -/

/-- C5 (counterexample): two participants whose six item slots hold the same
multiset of four valid items in different orders get different build
signatures — the signature sorts only the first three valid items, so with
more than three valid items slot order leaks through. -/
theorem claim5_counterexample :
    (valid_player_items none [10, 20, 30, 40, 0, 0]).Perm
      (valid_player_items none [40, 30, 20, 10, 0, 0]) ∧
    build_signature none [10, 20, 30, 40, 0, 0] = some [10, 20, 30] ∧
    build_signature none [40, 30, 20, 10, 0, 0] = some [20, 30, 40] ∧
    build_signature none [10, 20, 30, 40, 0, 0] ≠
      build_signature none [40, 30, 20, 10, 0, 0] := by
  refine ⟨?_, ?_, ?_, ?_⟩
  · with_unfolding_all decide
  · with_unfolding_all decide
  · with_unfolding_all decide
  · with_unfolding_all decide

/-- C5 (amended): build-signature canonicalisation is order-independent for
participants holding at most three valid items: equal multisets of valid
items then yield identical signatures (in particular `[10, 20, 30]` and
`[30, 10, 20]`); with four or more valid items the signature depends on slot
order.  A participant with fewer than two valid items contributes no build
signature. -/
theorem claim5_amended (validItems : Option (List Nat)) (items1 items2 : List Nat)
    (hperm : (valid_player_items validItems items1).Perm
      (valid_player_items validItems items2))
    (hlen : (valid_player_items validItems items1).length ≤ 3) :
    build_signature validItems items1 = build_signature validItems items2 ∧
    ∀ items, (valid_player_items validItems items).length < 2 →
      build_signature validItems items = none := by
  constructor
  · unfold build_signature
    have hlen21 : (valid_player_items validItems items2).length =
        (valid_player_items validItems items1).length := hperm.length_eq.symm
    by_cases h2 : 2 ≤ (valid_player_items validItems items1).length
    · rw [if_pos h2, if_pos (by omega)]
      have e1 : (valid_player_items validItems items1).take 3 =
          valid_player_items validItems items1 := List.take_of_length_le hlen
      have e2 : (valid_player_items validItems items2).take 3 =
          valid_player_items validItems items2 := List.take_of_length_le (by omega)
      rw [e1, e2]
      exact congrArg some
        (List.eq_of_perm_of_sorted
          (((List.perm_insertionSort _ _).trans hperm).trans
            (List.perm_insertionSort _ _).symm)
          (List.sorted_insertionSort _ _) (List.sorted_insertionSort _ _))
    · rw [if_neg h2, if_neg (by omega)]
  · intro items hlt
    unfold build_signature
    rw [if_neg (by omega)]

/-- C5 (witness): the spec's own example — the same three valid items bought
in two different orders produce the identical signature `[10, 20, 30]`. -/
theorem claim5_witness :
    (valid_player_items none [10, 20, 30]).Perm (valid_player_items none [30, 10, 20]) ∧
    (valid_player_items none [10, 20, 30]).length ≤ 3 ∧
    build_signature none [10, 20, 30] = build_signature none [30, 10, 20] ∧
    build_signature none [10, 20, 30] = some [10, 20, 30] :=
  ⟨by with_unfolding_all decide, by with_unfolding_all decide,
    (claim5_amended none [10, 20, 30] [30, 10, 20] (by with_unfolding_all decide)
      (by with_unfolding_all decide)).1,
    by with_unfolding_all decide⟩

/-! ### C10: enemy-composition context tags -/

/-- C10: the context tags computed from the opposing team's damage profile
never contain both "Heavy AD" and "Heavy AP" (the magic-share test is an
`elif` of the physical-share test), and an opposing team that dealt zero
total damage to champions yields an empty tag list. -/
theorem claim10_damage_tags (tankChamps : List String) (ps : List RawParticipant)
    (my_team_id : Nat) :
    ¬("Heavy AD" ∈ analyze_enemy_comp tankChamps ps my_team_id ∧
      "Heavy AP" ∈ analyze_enemy_comp tankChamps ps my_team_id) ∧
    ((enemyTotals ps my_team_id).1 + (enemyTotals ps my_team_id).2.1 +
        (enemyTotals ps my_team_id).2.2 = 0 →
      analyze_enemy_comp tankChamps ps my_team_id = []) := by
  constructor
  · simp only [analyze_enemy_comp]
    repeat' split
    all_goals decide
  · intro h
    simp only [enemyTotals] at h
    simp only [analyze_enemy_comp]
    rw [if_pos h]

/-- C10 (witness): an empty participant list deals zero damage and yields an
empty tag list. -/
theorem claim10_witness :
    (enemyTotals [] 100).1 + (enemyTotals [] 100).2.1 + (enemyTotals [] 100).2.2 = 0 ∧
    analyze_enemy_comp [] [] 100 = [] :=
  ⟨by with_unfolding_all decide, (claim10_damage_tags [] [] 100).2 (by with_unfolding_all decide)⟩

/-! ### C4 and C6: aggregation math and inclusion filter -/

theorem pyRound_zero (nd : ℕ) : pyRound 0 nd = 0 := by
  unfold pyRound roundHalfEven ratFloor
  rw [zero_mul]
  norm_num

theorem mem_aggregate_mem_finalize {ml : List MatchSummary} {role : String}
    {cmap : List (Nat × String)} {vi : Option (List Nat)} {e : ResultEntry}
    (he : e ∈ aggregate ml role cmap vi) :
    e ∈ finalizeResults ml.length (addBans (collectStats ml role vi) ml cmap) := by
  simp only [aggregate] at he
  by_cases h : ml.length = 0
  · rw [if_pos h] at he
    exact absurd he (List.not_mem_nil e)
  · rw [if_neg h] at he
    exact ((List.perm_insertionSort _ _).mem_iff).mp (List.take_subset _ _ he)

theorem mem_finalizeResults_elim {total : ℕ} {stats : List (String × ChampStat)}
    {e : ResultEntry} (he : e ∈ finalizeResults total stats) :
    ∃ q ∈ stats, e = mkChampEntry total q.1 q.2 ∧
      (0 < q.2.g ∨ 1 < (mkChampEntry total q.1 q.2).ban_rate) := by
  simp only [finalizeResults] at he
  rcases List.mem_filterMap.mp he with ⟨q, hq, hfq⟩
  by_cases h0 : q.2.g = 0 ∧ q.2.b = 0
  · rw [if_pos h0] at hfq
    exact absurd hfq (by simp)
  · rw [if_neg h0] at hfq
    by_cases h1 : 0 < q.2.g ∨ 1 < (mkChampEntry total q.1 q.2).ban_rate
    · rw [if_pos h1] at hfq
      exact ⟨q, hq, (Option.some.inj hfq).symm, h1⟩
    · rw [if_neg h1] at hfq
      exact absurd hfq (by simp)

/-- C4: every champion summary emitted by `aggregate` carries exactly the
claimed derived statistics of its raw accumulator: pick rate
`games / total * 100` and ban rate `bans / total * 100` rounded to one
decimal, win rate `wins / games * 100` rounded to one decimal (0 when no
games), and KDA `(kills + assists) / max(deaths, 1)` rounded to two
decimals. -/
theorem claim4_rate_math (ml : List MatchSummary) (role : String)
    (cmap : List (Nat × String)) (vi : Option (List Nat)) (e : ResultEntry)
    (he : e ∈ aggregate ml role cmap vi) :
    ∃ s : ChampStat, (e.name, s) ∈ addBans (collectStats ml role vi) ml cmap ∧
      e.count = s.g ∧
      e.pick_rate = pyRound ((s.g : ℚ) / (ml.length : ℚ) * 100) 1 ∧
      e.ban_rate = pyRound ((s.b : ℚ) / (ml.length : ℚ) * 100) 1 ∧
      e.win_rate = (if 0 < s.g then pyRound ((s.w : ℚ) / (s.g : ℚ) * 100) 1 else 0) ∧
      e.kda = pyRound (((s.k : ℚ) + (s.a : ℚ)) / (if 0 < s.d then (s.d : ℚ) else 1)) 2 := by
  rcases mem_finalizeResults_elim (mem_aggregate_mem_finalize he) with ⟨q, hq, heq, _⟩
  subst heq
  exact ⟨q.2, by simpa using hq, rfl, rfl, rfl, rfl, rfl⟩

/-- C4 (witness): the spec's rate-math example — in a 40-match role-subset
where champion `X` has 10 games with 6 wins and 2 bans, the emitted entry
has pick rate 25.0, win rate 60.0, ban rate 5.0 (and KDA 6.00 from summed
30/10/30), and it is the rounding of the raw accumulator's formulas. -/
theorem claim4_witness :
    entryX ∈ aggregate ml40 "TOP" [(7, "X")] none ∧
    entryX.pick_rate = 25 ∧ entryX.win_rate = 60 ∧ entryX.ban_rate = 5 ∧ entryX.kda = 6 ∧
    (∃ s : ChampStat, (entryX.name, s) ∈ addBans (collectStats ml40 "TOP" none) ml40 [(7, "X")] ∧
      entryX.count = s.g ∧
      entryX.pick_rate = pyRound ((s.g : ℚ) / ((ml40 : List MatchSummary).length : ℚ) * 100) 1 ∧
      entryX.ban_rate = pyRound ((s.b : ℚ) / ((ml40 : List MatchSummary).length : ℚ) * 100) 1 ∧
      entryX.win_rate = (if 0 < s.g then pyRound ((s.w : ℚ) / (s.g : ℚ) * 100) 1 else 0) ∧
      entryX.kda = pyRound (((s.k : ℚ) + (s.a : ℚ)) / (if 0 < s.d then (s.d : ℚ) else 1)) 2) :=
  ⟨by with_unfolding_all decide, by with_unfolding_all decide, by with_unfolding_all decide,
    by with_unfolding_all decide, by with_unfolding_all decide,
    claim4_rate_math ml40 "TOP" [(7, "X")] none entryX (by with_unfolding_all decide)⟩

/-- C6 (counterexample): in a 16-match subset with 16 distinct champions
each holding one game in the `TOP` role, champion `C16` satisfies the
claimed inclusion condition (it has a recorded game) and yet is absent from
the aggregated result, because the emitted list is truncated to the 15
highest pick rates. -/
theorem claim6_counterexample :
    (∃ q ∈ addBans (collectStats ml16 "TOP" none) ml16 [], q.1 = "C16" ∧ 0 < q.2.g) ∧
    "C16" ∉ (aggregate ml16 "TOP" [] none).map (fun e => e.name) := by
  constructor
  · with_unfolding_all decide
  · with_unfolding_all decide

/-- C6 (amended): a champion appears in the finalised (pre-truncation)
result list if and only if it has at least one recorded game in the
role-subset or a reported ban rate strictly greater than 1.0; the emitted
aggregate additionally truncates to the 15 entries of highest pick rate, so
a qualifying champion can still be absent from the final list, every
emitted entry being one of the finalised ones. -/
theorem claim6_amended (total : ℕ) (stats : List (String × ChampStat)) (name : String)
    (ml : List MatchSummary) (role : String) (cmap : List (Nat × String))
    (vi : Option (List Nat)) :
    (name ∈ (finalizeResults total stats).map (fun e => e.name) ↔
      ∃ s, (name, s) ∈ stats ∧
        (0 < s.g ∨ 1 < pyRound ((s.b : ℚ) / (total : ℚ) * 100) 1)) ∧
    (aggregate ml role cmap vi).length ≤ 15 ∧
    (∀ e ∈ aggregate ml role cmap vi,
      e ∈ finalizeResults ml.length (addBans (collectStats ml role vi) ml cmap)) := by
  refine ⟨?_, ?_, fun e he => mem_aggregate_mem_finalize he⟩
  · constructor
    · intro h
      rcases List.mem_map.mp h with ⟨e, he, hname⟩
      rcases mem_finalizeResults_elim he with ⟨q, hq, heq, hcond⟩
      refine ⟨q.2, ?_, ?_⟩
      · have : q.1 = name := by rw [← hname, heq]; rfl
        rw [← this]
        simpa using hq
      · simpa [mkChampEntry] using hcond
    · rintro ⟨s, hs, hcond⟩
      refine List.mem_map.mpr ⟨mkChampEntry total name s, ?_, rfl⟩
      simp only [finalizeResults]
      refine List.mem_filterMap.mpr ⟨(name, s), hs, ?_⟩
      have h0 : ¬(s.g = 0 ∧ s.b = 0) := by
        rintro ⟨e1, e2⟩
        rcases hcond with h | h
        · omega
        · rw [e2] at h
          simp only [Nat.cast_zero, zero_div, zero_mul, pyRound_zero] at h
          exact absurd h (by norm_num)
      have h0' : ¬((name, s).2.g = 0 ∧ (name, s).2.b = 0) := h0
      have hcond' : 0 < (name, s).2.g ∨
          1 < (mkChampEntry total (name, s).1 (name, s).2).ban_rate := hcond
      rw [if_neg h0', if_pos hcond']
  · by_cases h : ml.length = 0
    · simp [aggregate, h]
    · simp only [aggregate, if_neg h]
      exact (List.length_take_le _ _)

/-- C6 (witness): the inclusion boundary — out of 1000 matches, a champion
with 0 games banned 10 times (ban rate exactly 1.0) is excluded from the
finalised list, while one banned 11 times (ban rate 1.1) is included. -/
theorem claim6_witness :
    "B" ∈ (finalizeResults 1000 statsAB).map (fun e => e.name) ∧
    "A" ∉ (finalizeResults 1000 statsAB).map (fun e => e.name) :=
  ⟨(claim6_amended 1000 statsAB "B" [] "TOP" [] none).1.mpr
      ⟨statBan11, by with_unfolding_all decide,
        Or.inr (by with_unfolding_all decide)⟩,
    by with_unfolding_all decide⟩

/-! ### C9: leaderboards -/

/-- C9: for any tally table of one `(role, champion)` leaderboard key, the
emitted leaderboard has exactly one entry per tallied player (no
truncation), each entry carrying the player's games and the same rounded
win-rate and KDA formulas as the champion statistics, and the list is
sorted by games played descending with win rate descending as tie-break. -/
theorem claim9_leaderboards (players : List (String × PlayerTally)) :
    (buildLeaderboard players).length = players.length ∧
    List.Sorted lbLe (buildLeaderboard players) ∧
    (∀ q ∈ players, mkLBEntry q.1 q.2 ∈ buildLeaderboard players) ∧
    ∀ e ∈ buildLeaderboard players, ∃ q ∈ players,
      e.player = q.1 ∧ e.region = q.2.r ∧ e.games = q.2.g ∧
      e.win_rate = pyRound ((q.2.w : ℚ) / (q.2.g : ℚ) * 100) 1 ∧
      e.kda = pyRound (((q.2.k : ℚ) + (q.2.a : ℚ)) / (if 0 < q.2.d then (q.2.d : ℚ) else 1)) 2 := by
  refine ⟨?_, ?_, ?_, ?_⟩
  · unfold buildLeaderboard
    rw [(List.perm_insertionSort _ _).length_eq, List.length_map]
  · exact List.sorted_insertionSort _ _
  · intro q hq
    unfold buildLeaderboard
    rw [(List.perm_insertionSort _ _).mem_iff]
    exact List.mem_map.mpr ⟨q, hq, rfl⟩
  · intro e he
    unfold buildLeaderboard at he
    rw [(List.perm_insertionSort _ _).mem_iff] at he
    rcases List.mem_map.mp he with ⟨q, hq, heq⟩
    subst heq
    exact ⟨q, hq, rfl, rfl, rfl, rfl, rfl⟩

/-- C9 (witness): on two tallies under one key — `p1` with 3 games at 33.3%
win rate and `p2` with 2 games at 100% — the emitted leaderboard keeps both
entries (no truncation) and orders `p1` first by games played. -/
theorem claim9_witness :
    buildLeaderboard lbPlayers =
      [⟨"p1", "kr", 3, 333/10, 5⟩, ⟨"p2", "kr", 2, 100, 7⟩] ∧
    mkLBEntry "p2" ⟨2, 2, 10, 2, 4, "kr"⟩ ∈ buildLeaderboard lbPlayers :=
  ⟨by with_unfolding_all decide,
    (claim9_leaderboards lbPlayers).2.2.1 ("p2", ⟨2, 2, 10, 2, 4, "kr"⟩)
      (by with_unfolding_all decide)⟩
